import Mathlib

/-!
Verification development for the foxbot background worker's channel
attribution pipeline (`foxbot-background-worker/src/channel.rs`).

The two job processors `process_channel_update` and `process_channel_edit`
and the helpers `already_had_source` and `has_similar_hash` are embedded
from the source.  External collaborators (Redis, the Telegram client, the
reverse-image-search service, the per-site URL resolvers) appear as
explicit state or as oracle inputs, following the contracts in the spec.
Helpers of this repository whose source is not part of the worker crate
(`find_best_photo`, `link_was_seen`, `check_more_time`, `needs_more_time`,
`sort_results_by`, `first_of_each_site`) are modelled from the spec and
marked as such.
-/

namespace Foxbot

/-! ## Data model -/

/-- A Telegram photo size variant (`tgbotapi::PhotoSize`). -/
structure PhotoSize where
  file_id : String
  width : Int
  height : Int
deriving DecidableEq, Repr

/-- The chat a message belongs to (`tgbotapi::Chat`), only the id is used. -/
structure Chat where
  id : Int
deriving DecidableEq, Repr

/-- The fields of `tgbotapi::Message` the channel pipeline reads. -/
structure Message where
  message_id : Int
  chat : Chat
  media_group_id : Option String
  photo : Option (List PhotoSize)
deriving DecidableEq, Repr

/-- Site identifiers (`foxbot_models::Sites`). -/
inductive Sites where
  | FurAffinity
  | E621
  | Twitter
  | Weasyl
deriving DecidableEq, Repr

/-- A reverse-image-search match (`fuzzysearch::File`): its canonical URL
(the result of `File::url()`), its site, and the similarity distance. -/
structure File where
  site : Sites
  url : String
  distance : Option Nat
deriving DecidableEq, Repr

/-- The durable `MessageEdit` payload carried by `channel_edit` jobs. -/
structure MessageEdit where
  chat_id : String
  message_id : Int
  media_group_id : Option String
  firsts : List (Sites × String)
deriving DecidableEq, Repr

/-- A job handed to the Faktory queue: job type, queue name, payload and
optional scheduled-at instant (the source's `job.at`; `at` is reserved in
Lean).  Timestamps are integers. -/
structure FaktoryJob where
  kind : String
  queue : String
  payload : MessageEdit
  scheduledAt : Option Int
deriving DecidableEq, Repr

/-! ## Redis group-source state

The group-source dedup store: each key holds a set of strings, represented
as a duplicate-free list in insertion order.  `sadd` is Redis `SADD`: it
adds every member not already present and returns how many were added. -/

/-- The store keyed by `group-sources:{group_id}` strings. -/
def RedisState : Type := String → List String

/-- Redis `SADD` of a single member: add if absent, report 1 if added. -/
def saddOne (s : List String) (u : String) : List String × Nat :=
  if u ∈ s then (s, 0) else (s ++ [u], 1)

/-- Redis `SADD` with several members, adding them left to right and
summing how many were new. -/
def sadd (s : List String) : List String → List String × Nat
  | [] => (s, 0)
  | u :: rest =>
    let r := saddOne s u
    let r2 := sadd r.1 rest
    (r2.1, r.2 + r2.2)

/-- Lexicographic sort, modelling `Vec::sort` on the URL list (equal
strings are identical, so every sort yields this list). -/
def sortUrls (l : List String) : List String :=
  l.insertionSort (· ≤ ·)

/-- Remove consecutive duplicates, modelling `Vec::dedup`. -/
def dedupConsec (l : List String) : List String :=
  l.destutter (· ≠ ·)

/-- The Redis key used for a media group's source set. -/
def groupKey (group_id : String) : String :=
  "group-sources:" ++ group_id

/-- Embeds `already_had_source` (channel.rs:262).  Without a media-group id
it is a no-op returning `false`.  Otherwise it normalizes the matched
canonical URLs (sort then dedup), `SADD`s them under the group's key and
reports `true` iff fewer elements were added than submitted.  The 300s
`EXPIRE` refresh only touches TTL metadata and is not represented. -/
def already_had_source (conn : RedisState) (message : Message)
    (sources : List File) : Bool × RedisState :=
  match message.media_group_id with
  | none => (false, conn)
  | some group_id =>
    let key := groupKey group_id
    let urls := dedupConsec (sortUrls (sources.map (fun m => m.url)))
    let source_count := urls.length
    let r := sadd (conn key) urls
    (decide (source_count > r.2), fun k => if k = key then r.1 else conn k)

/-! ## Similarity checker -/

/-- Halving pass of `popCount`: the first argument is fuel bounding the
recursion depth; `n` halvings always reach zero, so `popCountAux n n`
counts every set bit. -/
def popCountAux : Nat → Nat → Nat
  | 0, _ => 0
  | _ + 1, 0 => 0
  | fuel + 1, n => n % 2 + popCountAux fuel (n / 2)

/-- Number of set bits of a natural number. -/
def popCount (n : Nat) : Nat :=
  popCountAux n n

/-- Hamming distance between two 64-bit fingerprints viewed as bit
patterns (`hamming::distance_fast` over the `to_be_bytes` arrays). -/
def hammingDistance (a b : Nat) : Nat :=
  popCount (Nat.xor a b)

/-- Embeds `has_similar_hash` (channel.rs:299).  Downloading a candidate
URL, decoding it and hashing it is external I/O, represented by the oracle
`fetchHash`: `none` means the download or decode failed (the source logs
and `continue`s), `some h` is the computed 64-bit perceptual hash.  The
scan returns `true` on the first candidate within Hamming distance 3 of
the target and `false` once all candidates are exhausted. -/
def has_similar_hash (fetchHash : String → Option Nat) (target : Nat) :
    List String → Bool
  | [] => false
  | url :: rest =>
    match fetchHash url with
    | none => has_similar_hash fetchHash target rest
    | some h =>
      if hammingDistance target h ≤ 3 then true
      else has_similar_hash fetchHash target rest

/-! ## Telegram client interface -/

/-- `tgbotapi::ResponseParameters` (only the fields the worker reads). -/
structure ResponseParameters where
  migrate_to_chat_id : Option Int
  retry_after : Option Int
deriving DecidableEq, Repr

/-- `tgbotapi::TelegramError` (only the fields the worker reads). -/
structure TelegramError where
  error_code : Option Int
  description : Option String
  parameters : Option ResponseParameters
deriving DecidableEq, Repr

/-- `tgbotapi::Error`: either a Telegram API error response or any other
client-side failure (request, JSON, ...). -/
inductive TgError where
  | telegram (e : TelegramError)
  | other
deriving DecidableEq, Repr

/-- The worker's `Error` type as far as the channel pipeline produces it. -/
inductive Error where
  | missingData
  | tgbotapi (e : TgError)
deriving DecidableEq, Repr

/-- An inline keyboard button (`tgbotapi::InlineKeyboardButton`). -/
structure InlineKeyboardButton where
  text : String
  url : Option String
deriving DecidableEq, Repr

/-- An edit request sent to the Telegram API: either
`EditMessageCaption` or `EditMessageReplyMarkup`. -/
inductive EditRequest where
  | caption (chat_id : String) (message_id : Int) (text : String)
  | replyMarkup (chat_id : String) (message_id : Int)
      (keyboard : List (List InlineKeyboardButton))
deriving DecidableEq, Repr

/-- Modelled from the spec: `Sites::as_str`, the display name used as
button text.  Its exact strings do not influence any pipeline branch. -/
def Sites.as_str : Sites → String
  | .FurAffinity => "FurAffinity"
  | .E621 => "e621"
  | .Twitter => "Twitter"
  | .Weasyl => "Weasyl"

/-- `buttons.chunks(2)` when the count is even (here the list always has
even length, so groups are exact pairs). -/
def chunkPairs : List InlineKeyboardButton → List (List InlineKeyboardButton)
  | a :: b :: rest => [a, b] :: chunkPairs rest
  | [a] => [[a]]
  | [] => []

/-- The keyboard layout of the standalone-message branch: one button per
`firsts` entry; two per row when the count is even, else one per row. -/
def buildKeyboard (firsts : List (Sites × String)) :
    List (List InlineKeyboardButton) :=
  let buttons := firsts.map (fun sf =>
    { text := Sites.as_str sf.1, url := some sf.2 : InlineKeyboardButton })
  if buttons.length % 2 = 0 then chunkPairs buttons
  else buttons.map (fun b => [b])

/-- The caption of the media-group branch: the `firsts` URLs joined by
newlines. -/
def buildCaption (firsts : List (Sites × String)) : String :=
  String.intercalate "\n" (firsts.map (fun sf => sf.2))

/-! ## Backoff marker state -/

/-- The per-chat rate-limit backoff store: chat id to the stored
not-before instant, if any. -/
def BackoffState : Type := String → Option Int

/-- Modelled from the spec: `mark_backoff(chat_id, not_before)`
(the source's `needs_more_time`), which writes the per-chat backoff
marker. -/
def needs_more_time (st : BackoffState) (chat_id : String) (notBefore : Int) :
    BackoffState :=
  fun c => if c = chat_id then some notBefore else st c

/-- Modelled from the spec: `get_backoff(chat_id)` (the source's
`check_more_time`), which yields the stored not-before instant when one
exists and is still in the future, and nothing otherwise. -/
def check_more_time (st : BackoffState) (now : Int) (chat_id : String) :
    Option Int :=
  match st chat_id with
  | some notBefore => if now < notBefore then some notBefore else none
  | none => none

/-! ## Edit scheduler -/

/-- Everything `process_channel_edit` did in one run: the job outcome, the
jobs it enqueued, the Telegram requests it made, and the backoff store it
left behind. -/
structure EditResult where
  result : Except Error Unit
  enqueued : List FaktoryJob
  requests : List EditRequest
  state : BackoffState

/-- Embeds `process_channel_edit` (channel.rs:106).  `now` is the instant
`chrono::offset::Utc::now()` would return, and `resp` is the oracle for
the Telegram client's answer to the edit request.  The function first
consults the backoff marker; when clear it issues exactly one edit request
(caption for media-group messages, reply markup otherwise) and classifies
the response as the source's `match resp` does, in the source's arm
order: retry-after present, then error code 400, then 403, then success,
then propagation. -/
def process_channel_edit (st : BackoffState) (now : Int) (edit : MessageEdit)
    (resp : Except TgError Unit) : EditResult :=
  match check_more_time st now edit.chat_id with
  | some notBefore =>
    { result := .ok ()
      enqueued := [{ kind := "channel_edit", queue := "foxbot_background",
                     payload := edit, scheduledAt := some notBefore }]
      requests := []
      state := st }
  | none =>
    let req :=
      match edit.media_group_id with
      | some _ =>
        EditRequest.caption edit.chat_id edit.message_id
          (buildCaption edit.firsts)
      | none =>
        EditRequest.replyMarkup edit.chat_id edit.message_id
          (buildKeyboard edit.firsts)
    match resp with
    | .error (.telegram e) =>
      match e.parameters with
      | some { retry_after := some ra, .. } =>
        let retry_at := now + ra
        { result := .ok ()
          enqueued := [{ kind := "channel_edit", queue := "foxbot_background",
                         payload := edit, scheduledAt := some retry_at }]
          requests := [req]
          state := needs_more_time st edit.chat_id retry_at }
      | _ =>
        match e.error_code with
        | some 400 =>
          { result := .ok (), enqueued := [], requests := [req], state := st }
        | some 403 =>
          { result := .ok (), enqueued := [], requests := [req], state := st }
        | _ =>
          { result := .error (.tgbotapi (.telegram e)), enqueued := [],
            requests := [req], state := st }
    | .ok _ =>
      { result := .ok (), enqueued := [], requests := [req], state := st }
    | .error .other =>
      { result := .error (.tgbotapi .other), enqueued := [],
        requests := [req], state := st }

/-! ## Source pipeline -/

/-- Modelled from the spec: `find_best_photo` (a shared utility outside
the worker crate) resolves the best-quality photo variant, the largest
available size; it has nothing to pick from an empty list. -/
def find_best_photo (sizes : List PhotoSize) : Option PhotoSize :=
  sizes.foldl (fun best p =>
    match best with
    | none => some p
    | some b =>
      if p.height * p.width > b.height * b.width then some p else some b)
    none

/-- Modelled from the spec: `link_was_seen` (a shared utility outside the
worker crate) checks whether a matched candidate's canonical URL equals
one of the links extracted from the post's own text. -/
def link_was_seen (links : List String) (url : String) : Bool :=
  links.contains url

/-- Modelled from the spec: `Sites::default_order`, the fixed
site-priority order used to keep result ordering consistent. -/
def default_order : List Sites :=
  [.FurAffinity, .Weasyl, .E621, .Twitter]

/-- Position of a site in a priority order (unknown sites sort last). -/
def siteIndex (order : List Sites) (s : Sites) : Nat :=
  match order.indexOf? s with
  | some i => i
  | none => order.length

/-- Sort key of a match: site-priority index first, then similarity
distance (a missing distance sorts last, as in the distance filter). -/
def resultKey (order : List Sites) (f : File) : Nat × Nat :=
  (siteIndex order f.site, f.distance.getD 10)

/-- Lexicographic comparison of sort keys. -/
def keyLe (a b : Nat × Nat) : Bool :=
  a.1 < b.1 || (a.1 = b.1 && a.2 ≤ b.2)

/-- Insert a match into a list sorted by `resultKey`, keeping it
sorted. -/
def insertBySite (order : List Sites) (f : File) : List File → List File
  | [] => [f]
  | g :: rest =>
    if keyLe (resultKey order f) (resultKey order g) then f :: g :: rest
    else g :: insertBySite order f rest

/-- Modelled from the spec: `sort_results_by` (a shared utility outside
the worker crate) orders candidates by the given site-priority order,
lowest distance first within each site. -/
def sort_results_by (order : List Sites) (results : List File) : List File :=
  results.foldr (insertBySite order) []

/-- Accumulator pass of `first_of_each_site`: keep the first match of
each site not seen yet. -/
def firstOfEachSiteGo (seen : List Sites) : List File → List (Sites × File)
  | [] => []
  | f :: rest =>
    if f.site ∈ seen then firstOfEachSiteGo seen rest
    else (f.site, f) :: firstOfEachSiteGo (f.site :: seen) rest

/-- Modelled from the spec: `first_of_each_site` (a shared utility outside
the worker crate) picks the single best candidate per distinct site; on
the distance-sorted input from `sort_results_by` the first occurrence per
site is its lowest-distance match. -/
def first_of_each_site (results : List File) : List (Sites × File) :=
  firstOfEachSiteGo [] results

/-- Oracle inputs standing for the external calls one
`process_channel_update` run makes: the reverse-image-search result
(`match_image`), the links extracted from the post text (`extract_links`,
outside the worker crate), the image URLs the site loaders resolved those
links to (`find_images`), and the similarity checker's downloads. -/
structure UpdateOracle where
  matchResult : Except Error (Nat × List File)
  links : List String
  resolvedUrls : List String
  fetchHash : String → Option Nat

/-- Everything `process_channel_update` did in one run: the job outcome,
the jobs it enqueued, and the Redis group-source store it left behind. -/
structure UpdateResult where
  result : Except Error Unit
  enqueued : List FaktoryJob
  state : RedisState

/-- Embeds `process_channel_update` (channel.rs:7), starting from the
parsed message.  In source order: skip without a photo field; fail with
`MissingData` when `find_best_photo` finds nothing; run `match_image`
(oracle); keep matches with distance at most 3 (`unwrap_or(10)`); skip
when none survive; skip when a match's URL was seen among the post's own
links; when the post has links, skip on a similar hash among the resolved
URLs; skip when the media group already had a source; otherwise enqueue
one `channel_edit` job on `foxbot_background` carrying the `MessageEdit`
payload built from the sorted matches' first-of-each-site URLs. -/
def process_channel_update (redis : RedisState) (message : Message)
    (o : UpdateOracle) : UpdateResult :=
  match message.photo with
  | none => { result := .ok (), enqueued := [], state := redis }
  | some sizes =>
    match find_best_photo sizes with
    | none => { result := .error .missingData, enqueued := [], state := redis }
    | some _file =>
      match o.matchResult with
      | .error e => { result := .error e, enqueued := [], state := redis }
      | .ok (searched_hash, found) =>
        let kept := found.filter (fun m => (m.distance.getD 10) ≤ 3)
        if kept.isEmpty then
          { result := .ok (), enqueued := [], state := redis }
        else if kept.any (fun f => link_was_seen o.links f.url) then
          { result := .ok (), enqueued := [], state := redis }
        else if !o.links.isEmpty
            && has_similar_hash o.fetchHash searched_hash o.resolvedUrls then
          { result := .ok (), enqueued := [], state := redis }
        else
          let dup := already_had_source redis message kept
          if dup.1 then
            { result := .ok (), enqueued := [], state := dup.2 }
          else
            let sorted := sort_results_by default_order kept
            let firsts := (first_of_each_site sorted).map
              (fun sf => (sf.1, sf.2.url))
            let payload : MessageEdit :=
              { chat_id := toString message.chat.id
                message_id := message.message_id
                media_group_id := message.media_group_id
                firsts := firsts }
            { result := .ok ()
              enqueued := [{ kind := "channel_edit",
                             queue := "foxbot_background",
                             payload := payload, scheduledAt := none }]
              state := dup.2 }

/-- The retry-after hint of a Telegram error, when its response parameters
carry one; the source's first match arm fires exactly when this is
`some`. -/
def retryAfterHint (e : TelegramError) : Option Int :=
  match e.parameters with
  | some p => p.retry_after
  | none => none

/-! ## Helper lemmas about the Redis set model -/

theorem sadd_count_le (s urls : List String) :
    (sadd s urls).2 ≤ urls.length := by
  induction urls generalizing s with
  | nil => simp [sadd]
  | cons u rest ih =>
    simp only [sadd, saddOne]
    split
    · simpa using Nat.le_succ_of_le (ih s)
    · simpa [Nat.add_comm] using ih (s ++ [u])

theorem sadd_of_forall_mem (s urls : List String)
    (h : ∀ u ∈ urls, u ∈ s) : sadd s urls = (s, 0) := by
  induction urls with
  | nil => rfl
  | cons u rest ih =>
    have hu : u ∈ s := h u (by simp)
    simp only [sadd, saddOne, if_pos hu]
    rw [ih (fun v hv => h v (by simp [hv]))]
    simp

theorem sadd_of_disjoint (s urls : List String) (hn : urls.Nodup)
    (hd : ∀ u ∈ urls, u ∉ s) : sadd s urls = (s ++ urls, urls.length) := by
  induction urls generalizing s with
  | nil => simp [sadd]
  | cons u rest ih =>
    have hu : u ∉ s := hd u (by simp)
    have hrest : ∀ v ∈ rest, v ∉ s ++ [u] := by
      intro v hv
      have hvs : v ∉ s := hd v (by simp [hv])
      have hvu : v ≠ u := by
        intro hvu
        exact (List.nodup_cons.mp hn).1 (hvu ▸ hv)
      simp [hvs, hvu]
    simp only [sadd, saddOne, if_neg hu]
    rw [ih (s ++ [u]) (List.nodup_cons.mp hn).2 hrest]
    simp [Nat.add_comm]

theorem sadd_count_lt_iff (s urls : List String) (hn : urls.Nodup) :
    (sadd s urls).2 < urls.length ↔ ∃ u ∈ urls, u ∈ s := by
  induction urls generalizing s with
  | nil => simp [sadd]
  | cons u rest ih =>
    rcases List.nodup_cons.mp hn with ⟨hu, hrest⟩
    by_cases hmem : u ∈ s
    · simp only [sadd, saddOne, if_pos hmem]
      constructor
      · intro _
        exact ⟨u, by simp, hmem⟩
      · intro _
        have := sadd_count_le s rest
        simp only [List.length_cons]
        omega
    · simp only [sadd, saddOne, if_neg hmem]
      have step : (sadd (s ++ [u]) rest).2 < rest.length ↔
          ∃ v ∈ rest, v ∈ s ++ [u] := ih (s ++ [u]) hrest
      constructor
      · intro hlt
        have : (sadd (s ++ [u]) rest).2 < rest.length := by
          simp only [List.length_cons] at hlt
          omega
        rcases step.mp this with ⟨v, hv, hvmem⟩
        rcases List.mem_append.mp hvmem with hvs | hvu
        · exact ⟨v, by simp [hv], hvs⟩
        · exact absurd ((List.mem_singleton.mp hvu) ▸ hv) hu
      · intro hex
        rcases hex with ⟨v, hv, hvs⟩
        rcases List.mem_cons.mp hv with rfl | hvrest
        · exact absurd hvs hmem
        · have : (sadd (s ++ [u]) rest).2 < rest.length :=
            step.mpr ⟨v, hvrest, by simp [hvs]⟩
          simp only [List.length_cons]
          omega

/-- Adjacent-distinct plus sorted gives a strictly increasing chain. -/
theorem chain'_lt_of_ne_le : ∀ {l : List String},
    l.Chain' (· ≠ ·) → l.Chain' (· ≤ ·) → l.Chain' (· < ·)
  | [], _, _ => List.chain'_nil
  | [_], _, _ => List.chain'_singleton _
  | _ :: _ :: _, h1, h2 => by
    rw [List.chain'_cons] at h1 h2 ⊢
    exact ⟨lt_of_le_of_ne h2.1 h1.1, chain'_lt_of_ne_le h1.2 h2.2⟩

/-- The normalized URL list (sort then consecutive dedup) has no
duplicates. -/
theorem normalized_nodup (l : List String) :
    (dedupConsec (sortUrls l)).Nodup := by
  have hs : (sortUrls l).Sorted (· ≤ ·) := List.sorted_insertionSort _ l
  have hsub : List.Sublist (dedupConsec (sortUrls l)) (sortUrls l) :=
    List.destutter_sublist _ (sortUrls l)
  have hle : (dedupConsec (sortUrls l)).Pairwise (· ≤ ·) :=
    List.Pairwise.sublist hsub hs
  have hne : (dedupConsec (sortUrls l)).Chain' (· ≠ ·) :=
    List.destutter_is_chain' _ (sortUrls l)
  have hlt : (dedupConsec (sortUrls l)).Chain' (· < ·) :=
    chain'_lt_of_ne_le hne hle.chain'
  have hp : (dedupConsec (sortUrls l)).Pairwise (· < ·) :=
    List.chain'_iff_pairwise.mp hlt
  exact List.Sorted.nodup hp

/-- Normalization yields an empty list only from an empty input. -/
theorem normalized_eq_nil_iff (l : List String) :
    dedupConsec (sortUrls l) = [] ↔ l = [] := by
  rw [dedupConsec, List.destutter_eq_nil]
  constructor
  · intro h
    have hlen : (sortUrls l).length = l.length :=
      List.length_insertionSort (· ≤ ·) l
    rw [h] at hlen
    exact List.length_eq_zero.mp hlen.symm
  · intro h
    simp [sortUrls, h]

/-! ## Claim theorems -/

/-- C1: `already_had_source` normalizes the matched candidates' URLs
(sort and consecutive dedup), set-adds them under the media group's key,
and reports a duplicate exactly when some normalized URL was already in
the group's stored set — equivalently, when strictly fewer elements were
added than distinct URLs submitted.  Consequently, for a message with a
media-group id, calling it twice with the same non-empty match list
against a fresh group returns `false` the first time and `true` the
second time. -/
theorem C1_group_dedup_false_then_true :
    (∀ (conn : RedisState) (message : Message) (g : String)
        (srcs : List File), message.media_group_id = some g →
      ((already_had_source conn message srcs).1 = true ↔
        ∃ u ∈ dedupConsec (sortUrls (srcs.map (fun m => m.url))),
          u ∈ conn (groupKey g))) ∧
    (∀ (conn : RedisState) (message : Message) (g : String)
        (srcs : List File), message.media_group_id = some g → srcs ≠ [] →
      conn (groupKey g) = [] →
      (already_had_source conn message srcs).1 = false ∧
      (already_had_source (already_had_source conn message srcs).2
          message srcs).1 = true) := by
  constructor
  · intro conn message g srcs hg
    simp only [already_had_source, hg, decide_eq_true_eq, gt_iff_lt]
    exact sadd_count_lt_iff _ _ (normalized_nodup _)
  · intro conn message g srcs hg hne hempty
    have hnodup := normalized_nodup (srcs.map (fun m => m.url))
    have hunil : dedupConsec (sortUrls (srcs.map (fun m => m.url))) ≠ [] := by
      intro h
      exact hne (List.map_eq_nil_iff.mp ((normalized_eq_nil_iff _).mp h))
    have hfirst :
        sadd (conn (groupKey g))
            (dedupConsec (sortUrls (srcs.map (fun m => m.url)))) =
          (dedupConsec (sortUrls (srcs.map (fun m => m.url))),
            (dedupConsec (sortUrls (srcs.map (fun m => m.url)))).length) := by
      rw [hempty]
      have := sadd_of_disjoint []
        (dedupConsec (sortUrls (srcs.map (fun m => m.url)))) hnodup
        (by intro u _; simp)
      simpa using this
    constructor
    · simp only [already_had_source, hg, hfirst]
      simp
    · simp only [already_had_source, hg, hfirst]
      have hsecond :
          sadd (dedupConsec (sortUrls (srcs.map (fun m => m.url))))
              (dedupConsec (sortUrls (srcs.map (fun m => m.url)))) =
            (dedupConsec (sortUrls (srcs.map (fun m => m.url))), 0) :=
        sadd_of_forall_mem _ _ (fun u hu => hu)
      simp [hsecond, List.length_pos, hunil]

/-- Witness for C1 at a one-element match list against a fresh store. -/
theorem C1_group_dedup_false_then_true_witness :
    (already_had_source (fun _ => [])
        { message_id := 1, chat := ⟨1⟩, media_group_id := some "g",
          photo := none }
        [{ site := .FurAffinity, url := "https://example.com/a",
           distance := some 1 }]).1 = false ∧
    (already_had_source
        (already_had_source (fun _ => [])
            { message_id := 1, chat := ⟨1⟩, media_group_id := some "g",
              photo := none }
            [{ site := .FurAffinity, url := "https://example.com/a",
               distance := some 1 }]).2
        { message_id := 1, chat := ⟨1⟩, media_group_id := some "g",
          photo := none }
        [{ site := .FurAffinity, url := "https://example.com/a",
           distance := some 1 }]).1 = true :=
  C1_group_dedup_false_then_true.2 (fun _ => [])
    { message_id := 1, chat := ⟨1⟩, media_group_id := some "g",
      photo := none }
    "g"
    [{ site := .FurAffinity, url := "https://example.com/a",
       distance := some 1 }]
    rfl (by simp) rfl

/-- C7: a channel-update job whose message carries no photo field ends as
a success with no follow-up job enqueued. -/
theorem C7_no_photo_is_skip (redis : RedisState) (message : Message)
    (o : UpdateOracle) (h : message.photo = none) :
    (process_channel_update redis message o).result = .ok () ∧
    (process_channel_update redis message o).enqueued = [] := by
  simp [process_channel_update, h]

/-- Witness for C7 at a concrete photo-less message. -/
theorem C7_no_photo_is_skip_witness :
    (process_channel_update (fun _ => [])
        { message_id := 1, chat := ⟨1⟩, media_group_id := none,
          photo := none }
        { matchResult := .error .missingData, links := [],
          resolvedUrls := [], fetchHash := fun _ => none }).result =
      .ok () ∧
    (process_channel_update (fun _ => [])
        { message_id := 1, chat := ⟨1⟩, media_group_id := none,
          photo := none }
        { matchResult := .error .missingData, links := [],
          resolvedUrls := [], fetchHash := fun _ => none }).enqueued =
      [] :=
  C7_no_photo_is_skip (fun _ => [])
    { message_id := 1, chat := ⟨1⟩, media_group_id := none, photo := none }
    { matchResult := .error .missingData, links := [], resolvedUrls := [],
      fetchHash := fun _ => none }
    rfl

/-- C9: a photo field that is present but holds no size variants makes
the job fail with `MissingData` (nothing for `find_best_photo` to pick),
unlike the absent-photo case which is a terminal success. -/
theorem C9_empty_photo_list_fails (redis : RedisState) (message : Message)
    (o : UpdateOracle) (h : message.photo = some []) :
    (process_channel_update redis message o).result =
      .error .missingData ∧
    (process_channel_update redis message o).enqueued = [] := by
  simp [process_channel_update, h, find_best_photo]

/-- Witness for C9 at a concrete message with an empty photo list. -/
theorem C9_empty_photo_list_fails_witness :
    (process_channel_update (fun _ => [])
        { message_id := 1, chat := ⟨1⟩, media_group_id := none,
          photo := some [] }
        { matchResult := .error .missingData, links := [],
          resolvedUrls := [], fetchHash := fun _ => none }).result =
      .error .missingData ∧
    (process_channel_update (fun _ => [])
        { message_id := 1, chat := ⟨1⟩, media_group_id := none,
          photo := some [] }
        { matchResult := .error .missingData, links := [],
          resolvedUrls := [], fetchHash := fun _ => none }).enqueued =
      [] :=
  C9_empty_photo_list_fails (fun _ => [])
    { message_id := 1, chat := ⟨1⟩, media_group_id := none,
      photo := some [] }
    { matchResult := .error .missingData, links := [], resolvedUrls := [],
      fetchHash := fun _ => none }
    rfl

/-- C4: the `retain` step keeps exactly the matches whose distance is
present and at most 3 (`unwrap_or(10)` treats a missing distance as worse
than the threshold); when nothing survives, the pipeline terminates
successfully without enqueuing a job. -/
theorem C4_distance_filter :
    (∀ (found : List File) (m : File),
      m ∈ found.filter (fun m => (m.distance.getD 10) ≤ 3) ↔
        m ∈ found ∧ ∃ d, m.distance = some d ∧ d ≤ 3) ∧
    (∀ (redis : RedisState) (message : Message) (o : UpdateOracle)
        (sizes : List PhotoSize) (f : PhotoSize) (hash : Nat)
        (found : List File),
      message.photo = some sizes → find_best_photo sizes = some f →
      o.matchResult = .ok (hash, found) →
      found.filter (fun m => (m.distance.getD 10) ≤ 3) = [] →
      (process_channel_update redis message o).result = .ok () ∧
      (process_channel_update redis message o).enqueued = []) := by
  constructor
  · intro found m
    simp only [List.mem_filter, decide_eq_true_eq]
    constructor
    · rintro ⟨hm, hd⟩
      refine ⟨hm, ?_⟩
      cases hdist : m.distance with
      | none => rw [hdist] at hd; simp at hd
      | some d =>
        rw [hdist] at hd
        exact ⟨d, rfl, by simpa using hd⟩
    · rintro ⟨hm, d, hd, hle⟩
      exact ⟨hm, by rw [hd]; simpa using hle⟩
  · intro redis message o sizes f hash found hp hf hm hfilter
    simp [process_channel_update, hp, hf, hm, hfilter]

/-- Witness for C4: the spec's distance example `[1, 4, 2]` and a run in
which every match is too distant. -/
theorem C4_distance_filter_witness :
    ((⟨.FurAffinity, "a", some 1⟩ : File) ∈
      ([⟨.FurAffinity, "a", some 1⟩, ⟨.E621, "b", some 4⟩,
        ⟨.Twitter, "c", some 2⟩] : List File).filter
        (fun m => (m.distance.getD 10) ≤ 3)) ∧
    (process_channel_update (fun _ => [])
        { message_id := 1, chat := ⟨1⟩, media_group_id := none,
          photo := some [{ file_id := "f", width := 10, height := 10 }] }
        { matchResult := .ok (0, [⟨.E621, "far", some 7⟩,
            ⟨.Weasyl, "nodist", none⟩]),
          links := [], resolvedUrls := [],
          fetchHash := fun _ => none }).result = .ok () ∧
    (process_channel_update (fun _ => [])
        { message_id := 1, chat := ⟨1⟩, media_group_id := none,
          photo := some [{ file_id := "f", width := 10, height := 10 }] }
        { matchResult := .ok (0, [⟨.E621, "far", some 7⟩,
            ⟨.Weasyl, "nodist", none⟩]),
          links := [], resolvedUrls := [],
          fetchHash := fun _ => none }).enqueued = [] := by
  refine ⟨?_, ?_, ?_⟩
  · exact (C4_distance_filter.1 _ _).mpr (by refine ⟨by simp, 1, rfl, by omega⟩)
  · exact (C4_distance_filter.2 (fun _ => []) _ _
      [{ file_id := "f", width := 10, height := 10 }]
      { file_id := "f", width := 10, height := 10 } 0
      [⟨.E621, "far", some 7⟩, ⟨.Weasyl, "nodist", none⟩]
      rfl rfl rfl (by simp)).1
  · exact (C4_distance_filter.2 (fun _ => []) _ _
      [{ file_id := "f", width := 10, height := 10 }]
      { file_id := "f", width := 10, height := 10 } 0
      [⟨.E621, "far", some 7⟩, ⟨.Weasyl, "nodist", none⟩]
      rfl rfl rfl (by simp)).2

/-- C6: when some match surviving the distance filter has a canonical URL
equal to one of the links extracted from the post's own text, the
pipeline terminates successfully without enqueuing an edit job. -/
theorem C6_self_sourced_skip (redis : RedisState) (message : Message)
    (o : UpdateOracle) (sizes : List PhotoSize) (f : PhotoSize)
    (hash : Nat) (found : List File)
    (hp : message.photo = some sizes)
    (hf : find_best_photo sizes = some f)
    (hm : o.matchResult = .ok (hash, found))
    (hseen : ∃ m ∈ found.filter (fun m => (m.distance.getD 10) ≤ 3),
        m.url ∈ o.links) :
    (process_channel_update redis message o).result = .ok () ∧
    (process_channel_update redis message o).enqueued = [] := by
  obtain ⟨m, hmk, hurl⟩ := hseen
  have hne : (found.filter (fun m => (m.distance.getD 10) ≤ 3)).isEmpty =
      false := by
    simp only [List.isEmpty_eq_false]
    exact List.ne_nil_of_mem hmk
  have hany : (found.filter (fun m => (m.distance.getD 10) ≤ 3)).any
      (fun f => link_was_seen o.links f.url) = true :=
    List.any_eq_true.mpr ⟨m, hmk, by simpa [link_was_seen] using hurl⟩
  simp [process_channel_update, hp, hf, hm, hne, hany]

/-- Witness for C6: one candidate at distance 2 whose URL the post
already contains. -/
theorem C6_self_sourced_skip_witness :
    (process_channel_update (fun _ => [])
        { message_id := 1, chat := ⟨1⟩, media_group_id := none,
          photo := some [{ file_id := "f", width := 10, height := 10 }] }
        { matchResult := .ok (0, [⟨.FurAffinity, "https://fa/1", some 2⟩]),
          links := ["https://fa/1"], resolvedUrls := [],
          fetchHash := fun _ => none }).result = .ok () ∧
    (process_channel_update (fun _ => [])
        { message_id := 1, chat := ⟨1⟩, media_group_id := none,
          photo := some [{ file_id := "f", width := 10, height := 10 }] }
        { matchResult := .ok (0, [⟨.FurAffinity, "https://fa/1", some 2⟩]),
          links := ["https://fa/1"], resolvedUrls := [],
          fetchHash := fun _ => none }).enqueued = [] :=
  C6_self_sourced_skip (fun _ => [])
    { message_id := 1, chat := ⟨1⟩, media_group_id := none,
      photo := some [{ file_id := "f", width := 10, height := 10 }] }
    { matchResult := .ok (0, [⟨.FurAffinity, "https://fa/1", some 2⟩]),
      links := ["https://fa/1"], resolvedUrls := [],
      fetchHash := fun _ => none }
    [{ file_id := "f", width := 10, height := 10 }]
    { file_id := "f", width := 10, height := 10 } 0
    [⟨.FurAffinity, "https://fa/1", some 2⟩]
    rfl rfl rfl ⟨⟨.FurAffinity, "https://fa/1", some 2⟩, by simp, by simp⟩

/-- C10: one run of `process_channel_update` enqueues at most one
follow-up job, and any job it enqueues is a `channel_edit` job on queue
`foxbot_background`; moreover each skip branch enqueues nothing: no
photo, no candidate surviving the distance filter, a self-sourced post,
a similar-hash hit among the post's own resolved links, and a media
group that already had a source. -/
theorem C10_at_most_one_edit_job (redis : RedisState) (message : Message)
    (o : UpdateOracle) :
    (process_channel_update redis message o).enqueued.length ≤ 1 ∧
    (∀ j ∈ (process_channel_update redis message o).enqueued,
      j.kind = "channel_edit" ∧ j.queue = "foxbot_background") ∧
    (message.photo = none →
      (process_channel_update redis message o).enqueued = []) ∧
    (∀ (hash : Nat) (found : List File),
      o.matchResult = .ok (hash, found) →
      found.filter (fun m => (m.distance.getD 10) ≤ 3) = [] →
      (process_channel_update redis message o).enqueued = []) ∧
    (∀ (hash : Nat) (found : List File),
      o.matchResult = .ok (hash, found) →
      (found.filter (fun m => (m.distance.getD 10) ≤ 3)).any
        (fun f => link_was_seen o.links f.url) = true →
      (process_channel_update redis message o).enqueued = []) ∧
    (∀ (hash : Nat) (found : List File),
      o.matchResult = .ok (hash, found) →
      (!o.links.isEmpty &&
        has_similar_hash o.fetchHash hash o.resolvedUrls) = true →
      (process_channel_update redis message o).enqueued = []) ∧
    (∀ (hash : Nat) (found : List File),
      o.matchResult = .ok (hash, found) →
      (already_had_source redis message
        (found.filter (fun m => (m.distance.getD 10) ≤ 3))).1 = true →
      (process_channel_update redis message o).enqueued = []) := by
  refine ⟨?_, ?_, ?_, ?_, ?_, ?_, ?_⟩
  · unfold process_channel_update
    repeat' (split <;> try simp_all)
  · unfold process_channel_update
    repeat' (split <;> try simp_all)
  · intro h
    simp [process_channel_update, h]
  · intro hash found hm hcond
    cases hp : message.photo with
    | none => simp [process_channel_update, hp]
    | some sizes =>
      cases hf : find_best_photo sizes with
      | none => simp [process_channel_update, hp, hf]
      | some f =>
        simp only [process_channel_update, hp, hf, hm]
        split_ifs <;> simp_all
  · intro hash found hm hcond
    cases hp : message.photo with
    | none => simp [process_channel_update, hp]
    | some sizes =>
      cases hf : find_best_photo sizes with
      | none => simp [process_channel_update, hp, hf]
      | some f =>
        simp only [process_channel_update, hp, hf, hm]
        split_ifs <;> simp_all
  · intro hash found hm hcond
    cases hp : message.photo with
    | none => simp [process_channel_update, hp]
    | some sizes =>
      cases hf : find_best_photo sizes with
      | none => simp [process_channel_update, hp, hf]
      | some f =>
        simp only [process_channel_update, hp, hf, hm]
        split_ifs <;> simp_all
  · intro hash found hm hcond
    cases hp : message.photo with
    | none => simp [process_channel_update, hp]
    | some sizes =>
      cases hf : find_best_photo sizes with
      | none => simp [process_channel_update, hp, hf]
      | some f =>
        simp only [process_channel_update, hp, hf, hm]
        split_ifs <;> simp_all

/-- Witness for C10: each skip branch exercised at a concrete input (no
photo; an all-evicted match list; a self-sourced post; a similar-hash
hit; a group whose stored set already holds the matched URL). -/
theorem C10_at_most_one_edit_job_witness :
    (process_channel_update (fun _ => [])
        { message_id := 1, chat := ⟨1⟩, media_group_id := none,
          photo := none }
        { matchResult := .error .missingData, links := [],
          resolvedUrls := [], fetchHash := fun _ => none }).enqueued =
      [] ∧
    (process_channel_update (fun _ => [])
        { message_id := 1, chat := ⟨1⟩, media_group_id := none,
          photo := some [{ file_id := "f", width := 10, height := 10 }] }
        { matchResult := .ok (0, [⟨.E621, "far", some 7⟩]), links := [],
          resolvedUrls := [], fetchHash := fun _ => none }).enqueued =
      [] ∧
    (process_channel_update (fun _ => [])
        { message_id := 1, chat := ⟨1⟩, media_group_id := none,
          photo := some [{ file_id := "f", width := 10, height := 10 }] }
        { matchResult := .ok (0, [⟨.E621, "https://e6/1", some 2⟩]),
          links := ["https://e6/1"], resolvedUrls := [],
          fetchHash := fun _ => none }).enqueued = [] ∧
    (process_channel_update (fun _ => [])
        { message_id := 1, chat := ⟨1⟩, media_group_id := none,
          photo := some [{ file_id := "f", width := 10, height := 10 }] }
        { matchResult := .ok (5, [⟨.E621, "https://e6/1", some 2⟩]),
          links := ["https://other/x"], resolvedUrls := ["https://img/r"],
          fetchHash := fun u =>
            if u = "https://img/r" then some 5 else none }).enqueued =
      [] ∧
    (process_channel_update
        (fun k => if k = "group-sources:g" then ["https://e6/1"] else [])
        { message_id := 1, chat := ⟨1⟩, media_group_id := some "g",
          photo := some [{ file_id := "f", width := 10, height := 10 }] }
        { matchResult := .ok (0, [⟨.E621, "https://e6/1", some 2⟩]),
          links := [], resolvedUrls := [],
          fetchHash := fun _ => none }).enqueued = [] :=
  ⟨(C10_at_most_one_edit_job (fun _ => [])
      { message_id := 1, chat := ⟨1⟩, media_group_id := none,
        photo := none }
      { matchResult := .error .missingData, links := [],
        resolvedUrls := [], fetchHash := fun _ => none }).2.2.1 rfl,
    (C10_at_most_one_edit_job (fun _ => [])
      { message_id := 1, chat := ⟨1⟩, media_group_id := none,
        photo := some [{ file_id := "f", width := 10, height := 10 }] }
      { matchResult := .ok (0, [⟨.E621, "far", some 7⟩]), links := [],
        resolvedUrls := [], fetchHash := fun _ => none }).2.2.2.1
      0 [⟨.E621, "far", some 7⟩] rfl (by simp),
    (C10_at_most_one_edit_job (fun _ => [])
      { message_id := 1, chat := ⟨1⟩, media_group_id := none,
        photo := some [{ file_id := "f", width := 10, height := 10 }] }
      { matchResult := .ok (0, [⟨.E621, "https://e6/1", some 2⟩]),
        links := ["https://e6/1"], resolvedUrls := [],
        fetchHash := fun _ => none }).2.2.2.2.1
      0 [⟨.E621, "https://e6/1", some 2⟩] rfl (by decide),
    (C10_at_most_one_edit_job (fun _ => [])
      { message_id := 1, chat := ⟨1⟩, media_group_id := none,
        photo := some [{ file_id := "f", width := 10, height := 10 }] }
      { matchResult := .ok (5, [⟨.E621, "https://e6/1", some 2⟩]),
        links := ["https://other/x"], resolvedUrls := ["https://img/r"],
        fetchHash := fun u =>
          if u = "https://img/r" then some 5 else none }).2.2.2.2.2.1
      5 [⟨.E621, "https://e6/1", some 2⟩] rfl (by decide),
    (C10_at_most_one_edit_job
      (fun k => if k = "group-sources:g" then ["https://e6/1"] else [])
      { message_id := 1, chat := ⟨1⟩, media_group_id := some "g",
        photo := some [{ file_id := "f", width := 10, height := 10 }] }
      { matchResult := .ok (0, [⟨.E621, "https://e6/1", some 2⟩]),
        links := [], resolvedUrls := [],
        fetchHash := fun _ => none }).2.2.2.2.2.2
      0 [⟨.E621, "https://e6/1", some 2⟩] rfl (by decide)⟩

/-- C5: the similarity scan returns `true` exactly when some candidate
whose download and decode succeed has a fingerprint within Hamming
distance 3 of the target; a failed candidate is skipped without affecting
the outcome, and a hit short-circuits the scan. -/
theorem C5_similar_hash_scan :
    (∀ (fh : String → Option Nat) (t : Nat) (urls : List String),
      has_similar_hash fh t urls = true ↔
        ∃ u ∈ urls, ∃ h, fh u = some h ∧ hammingDistance t h ≤ 3) ∧
    (∀ (fh : String → Option Nat) (t : Nat) (u : String)
        (rest : List String), fh u = none →
      has_similar_hash fh t (u :: rest) = has_similar_hash fh t rest) ∧
    (∀ (fh : String → Option Nat) (t : Nat) (u : String)
        (rest : List String) (h : Nat), fh u = some h →
      hammingDistance t h ≤ 3 →
      has_similar_hash fh t (u :: rest) = true) := by
  refine ⟨?_, ?_, ?_⟩
  · intro fh t urls
    induction urls with
    | nil => simp [has_similar_hash]
    | cons u rest ih =>
      cases hfu : fh u with
      | none =>
        rw [show has_similar_hash fh t (u :: rest) =
            has_similar_hash fh t rest by simp [has_similar_hash, hfu]]
        rw [ih]
        constructor
        · rintro ⟨v, hv, hh⟩
          exact ⟨v, by simp [hv], hh⟩
        · rintro ⟨v, hv, hh⟩
          rcases List.mem_cons.mp hv with rfl | hvr
          · rcases hh with ⟨h, hfh, _⟩
            rw [hfu] at hfh
            cases hfh
          · exact ⟨v, hvr, hh⟩
      | some h =>
        by_cases hd : hammingDistance t h ≤ 3
        · rw [show has_similar_hash fh t (u :: rest) = true by
            simp [has_similar_hash, hfu, hd]]
          simp only [true_iff]
          exact ⟨u, by simp, h, hfu, hd⟩
        · rw [show has_similar_hash fh t (u :: rest) =
              has_similar_hash fh t rest by simp [has_similar_hash, hfu, hd]]
          rw [ih]
          constructor
          · rintro ⟨v, hv, hh⟩
            exact ⟨v, by simp [hv], hh⟩
          · rintro ⟨v, hv, hh⟩
            rcases List.mem_cons.mp hv with rfl | hvr
            · rcases hh with ⟨h2, hfh, hh2⟩
              rw [hfu] at hfh
              cases hfh
              exact absurd hh2 hd
            · exact ⟨v, hvr, hh⟩
  · intro fh t u rest hfu
    simp [has_similar_hash, hfu]
  · intro fh t u rest h hfu hd
    simp [has_similar_hash, hfu, hd]

/-- Witness for C5: a failing candidate before an exactly-matching one. -/
theorem C5_similar_hash_scan_witness :
    has_similar_hash (fun u => if u = "good" then some 5 else none) 5
      ["bad", "good"] = true :=
  (C5_similar_hash_scan.1 (fun u => if u = "good" then some 5 else none)
    5 ["bad", "good"]).mpr
    ⟨"good", by simp, 5, by simp, by decide⟩

/-- C2: when the edit attempt is rate-limited with a `retry_after` hint
(and no backoff marker blocked the attempt), the scheduler writes the
per-chat backoff marker for `now + retry_after`, re-enqueues the identical
payload on `foxbot_background` scheduled at that instant, and completes
the job as a success. -/
theorem C2_rate_limit_reschedules (st : BackoffState) (now : Int)
    (edit : MessageEdit) (e : TelegramError) (p : ResponseParameters)
    (ra : Int)
    (hb : check_more_time st now edit.chat_id = none)
    (hp : e.parameters = some p) (hr : p.retry_after = some ra) :
    (process_channel_edit st now edit (.error (.telegram e))).result =
      .ok () ∧
    (process_channel_edit st now edit (.error (.telegram e))).enqueued =
      [{ kind := "channel_edit", queue := "foxbot_background",
         payload := edit, scheduledAt := some (now + ra) }] ∧
    (process_channel_edit st now edit (.error (.telegram e))).state
        edit.chat_id = some (now + ra) := by
  obtain ⟨mig, retry⟩ := p
  simp only [Option.some.injEq] at hr
  subst hr
  simp [process_channel_edit, hb, hp, needs_more_time]

/-- Witness for C2: a rate limit with `retry_after = 30` at `now = 100`
reschedules at 130 and marks the chat until 130. -/
theorem C2_rate_limit_reschedules_witness :
    (process_channel_edit (fun _ => none) 100
        { chat_id := "-100", message_id := 1, media_group_id := none,
          firsts := [(.FurAffinity, "https://fa/1")] }
        (.error (.telegram
          { error_code := some 429, description := none,
            parameters := some
              { migrate_to_chat_id := none, retry_after := some 30 } }))).result = .ok () ∧
    (process_channel_edit (fun _ => none) 100
        { chat_id := "-100", message_id := 1, media_group_id := none,
          firsts := [(.FurAffinity, "https://fa/1")] }
        (.error (.telegram
          { error_code := some 429, description := none,
            parameters := some
              { migrate_to_chat_id := none, retry_after := some 30 } }))).enqueued =
      [{ kind := "channel_edit", queue := "foxbot_background",
         payload :=
           { chat_id := "-100", message_id := 1, media_group_id := none,
             firsts := [(.FurAffinity, "https://fa/1")] },
         scheduledAt := some (100 + 30) }] ∧
    (process_channel_edit (fun _ => none) 100
        { chat_id := "-100", message_id := 1, media_group_id := none,
          firsts := [(.FurAffinity, "https://fa/1")] }
        (.error (.telegram
          { error_code := some 429, description := none,
            parameters := some
              { migrate_to_chat_id := none, retry_after := some 30 } }))).state "-100" = some (100 + 30) :=
  C2_rate_limit_reschedules (fun _ => none) 100
    { chat_id := "-100", message_id := 1, media_group_id := none,
      firsts := [(.FurAffinity, "https://fa/1")] }
    { error_code := some 429, description := none,
      parameters := some
        { migrate_to_chat_id := none, retry_after := some 30 } }
    { migrate_to_chat_id := none, retry_after := some 30 } 30
    rfl rfl rfl

/-- C3: when the chat's backoff marker holds a future instant, the
scheduler re-enqueues the identical payload at that instant and returns
success without making any request to the platform. -/
theorem C3_backoff_defers_without_request (st : BackoffState) (now : Int)
    (edit : MessageEdit) (resp : Except TgError Unit) (notBefore : Int)
    (hst : st edit.chat_id = some notBefore) (hfut : now < notBefore) :
    (process_channel_edit st now edit resp).result = .ok () ∧
    (process_channel_edit st now edit resp).requests = [] ∧
    (process_channel_edit st now edit resp).enqueued =
      [{ kind := "channel_edit", queue := "foxbot_background",
         payload := edit, scheduledAt := some notBefore }] := by
  have hb : check_more_time st now edit.chat_id = some notBefore := by
    simp [check_more_time, hst, hfut]
  simp [process_channel_edit, hb]

/-- Witness for C3: a marker at 130 defers a job arriving at 100. -/
theorem C3_backoff_defers_without_request_witness :
    (process_channel_edit
        (fun c => if c = "-100" then some 130 else none) 100
        { chat_id := "-100", message_id := 1, media_group_id := none,
          firsts := [(.FurAffinity, "https://fa/1")] }
        (.ok ())).result = .ok () ∧
    (process_channel_edit
        (fun c => if c = "-100" then some 130 else none) 100
        { chat_id := "-100", message_id := 1, media_group_id := none,
          firsts := [(.FurAffinity, "https://fa/1")] }
        (.ok ())).requests = [] ∧
    (process_channel_edit
        (fun c => if c = "-100" then some 130 else none) 100
        { chat_id := "-100", message_id := 1, media_group_id := none,
          firsts := [(.FurAffinity, "https://fa/1")] }
        (.ok ())).enqueued =
      [{ kind := "channel_edit", queue := "foxbot_background",
         payload :=
           { chat_id := "-100", message_id := 1, media_group_id := none,
             firsts := [(.FurAffinity, "https://fa/1")] },
         scheduledAt := some 130 }] :=
  C3_backoff_defers_without_request
    (fun c => if c = "-100" then some 130 else none) 100
    { chat_id := "-100", message_id := 1, media_group_id := none,
      firsts := [(.FurAffinity, "https://fa/1")] }
    (.ok ()) 130 (by simp) (by omega)

/-- C8: a Telegram client error of code 400 or 403 without a retry-after
hint is logged and dropped as a terminal success with nothing enqueued;
any other Telegram error without a hint, and any non-Telegram client
failure, propagates as a job failure. -/
theorem C8_client_error_classes :
    (∀ (st : BackoffState) (now : Int) (edit : MessageEdit)
        (e : TelegramError),
      check_more_time st now edit.chat_id = none →
      retryAfterHint e = none → e.error_code = some 400 →
      (process_channel_edit st now edit (.error (.telegram e))).result =
        .ok () ∧
      (process_channel_edit st now edit
          (.error (.telegram e))).enqueued = []) ∧
    (∀ (st : BackoffState) (now : Int) (edit : MessageEdit)
        (e : TelegramError),
      check_more_time st now edit.chat_id = none →
      retryAfterHint e = none → e.error_code = some 403 →
      (process_channel_edit st now edit (.error (.telegram e))).result =
        .ok () ∧
      (process_channel_edit st now edit
          (.error (.telegram e))).enqueued = []) ∧
    (∀ (st : BackoffState) (now : Int) (edit : MessageEdit)
        (e : TelegramError),
      check_more_time st now edit.chat_id = none →
      retryAfterHint e = none → e.error_code ≠ some 400 →
      e.error_code ≠ some 403 →
      (process_channel_edit st now edit (.error (.telegram e))).result =
        .error (.tgbotapi (.telegram e))) ∧
    (∀ (st : BackoffState) (now : Int) (edit : MessageEdit),
      check_more_time st now edit.chat_id = none →
      (process_channel_edit st now edit (.error .other)).result =
        .error (.tgbotapi .other)) := by
  refine ⟨?_, ?_, ?_, ?_⟩
  · intro st now edit e hb hhint h400
    obtain ⟨code, desc, params⟩ := e
    simp only at h400
    subst h400
    match params, hhint with
    | none, _ => simp [process_channel_edit, hb]
    | some ⟨mig, retry⟩, hhint =>
      simp only [retryAfterHint] at hhint
      subst hhint
      simp [process_channel_edit, hb]
  · intro st now edit e hb hhint h403
    obtain ⟨code, desc, params⟩ := e
    simp only at h403
    subst h403
    match params, hhint with
    | none, _ => simp [process_channel_edit, hb]
    | some ⟨mig, retry⟩, hhint =>
      simp only [retryAfterHint] at hhint
      subst hhint
      simp [process_channel_edit, hb]
  · intro st now edit e hb hhint h400 h403
    obtain ⟨code, desc, params⟩ := e
    simp only at h400 h403
    match params, hhint with
    | none, _ =>
      simp only [process_channel_edit, hb]
    | some ⟨mig, retry⟩, hhint =>
      simp only [retryAfterHint] at hhint
      subst hhint
      simp only [process_channel_edit, hb]
  · intro st now edit hb
    simp [process_channel_edit, hb]

/-- Witness for C8: a 400 without a hint is dropped, a 500 propagates. -/
theorem C8_client_error_classes_witness :
    (process_channel_edit (fun _ => none) 100
        { chat_id := "-100", message_id := 1, media_group_id := none,
          firsts := [(.FurAffinity, "https://fa/1")] }
        (.error (.telegram
          { error_code := some 400,
            description := some "Bad Request: MESSAGE_ID_INVALID",
            parameters := none }))).result = .ok () ∧
    (process_channel_edit (fun _ => none) 100
        { chat_id := "-100", message_id := 1, media_group_id := none,
          firsts := [(.FurAffinity, "https://fa/1")] }
        (.error (.telegram
          { error_code := some 500, description := none,
            parameters := none }))).result =
      .error (.tgbotapi (.telegram
        { error_code := some 500, description := none,
          parameters := none })) :=
  ⟨(C8_client_error_classes.1 (fun _ => none) 100
      { chat_id := "-100", message_id := 1, media_group_id := none,
        firsts := [(.FurAffinity, "https://fa/1")] }
      { error_code := some 400,
        description := some "Bad Request: MESSAGE_ID_INVALID",
        parameters := none }
      rfl rfl rfl).1,
    C8_client_error_classes.2.2.1 (fun _ => none) 100
      { chat_id := "-100", message_id := 1, media_group_id := none,
        firsts := [(.FurAffinity, "https://fa/1")] }
      { error_code := some 500, description := none, parameters := none }
      rfl rfl (by simp) (by simp)⟩

end Foxbot
